import Mathlib

/-!
Verification of the Geolocation_Tracker program (src/Geolocation_Tracker.py).

The development shallowly embeds the two components of the program:

* the geolocation client `get_ip_geolocation` (lines 20-51), together with the
  retry behaviour of the session built by `setup_session` (lines 13-18); and
* the interactive session controller, i.e. the menu loop of `main`
  (lines 132-202), as a step function on an explicit state.

Provider behaviour is a function from the attempt index to the outcome of
that outbound attempt, so that cache hits (zero attempts), retries and all
failure classes are observable in the model.
-/

namespace GeoTracker

/-- A JSON object body returned by the provider, as an association list from
field names to string values; the program only ever reads string-valued
fields through `dict.get`.  `[]` models the empty JSON object. -/
abbrev GeoDict := List (String × String)

/-- Python `d.get(k, dflt)`: the value bound to `k`, or the default. -/
def dictGet (d : GeoDict) (k dflt : String) : String :=
  match d with
  | [] => dflt
  | (k2, v) :: rest => if k2 = k then v else dictGet rest k dflt

/-- The process-lifetime cache `geo_cache` (line 11), mapping cache keys to
stored provider responses. -/
abbrev Cache := List (String × GeoDict)

/-- Dictionary lookup in the cache (the `cache_key in geo_cache` test and the
`geo_cache[cache_key]` read, lines 35-37). -/
def cacheFind : Cache → String → Option GeoDict
  | [], _ => none
  | (k, v) :: rest, key => if k = key then some v else cacheFind rest key

/-- Outcome of a single outbound HTTP attempt, as seen at the transport
layer underneath the mounted retry adapter. -/
inductive Attempt where
  /-- The attempt timed out (per-attempt deadline, `timeout=5` at line 40). -/
  | timeout
  /-- Connection-level failure: DNS, refused connection, TLS. -/
  | connFail
  /-- A response arrived; `body = none` models a body that is not valid JSON
  (so `response.json()` at line 42 raises), `body = some d` a JSON object. -/
  | ok (status : Nat) (body : Option GeoDict)
  deriving DecidableEq

/-- Provider behaviour: the outcome of the i-th outbound attempt (0-based). -/
abbrev Provider := Nat → Attempt

/-- `Retry(total=3, ...)` at line 16: number of retries after the first
attempt. -/
def retry_total : Nat := 3

/-- `backoff_factor=1` at line 16. -/
def backoff_factor : Nat := 1

/-- `status_forcelist=[429, 500, 502, 503, 504]` at line 16: the only
statuses the session retries. -/
def status_forcelist : List Nat := [429, 500, 502, 503, 504]

/-- urllib3 `Retry.get_backoff_time`: the sleep taken before the next
attempt once `n` consecutive attempts have failed; `0` before the first
retry, then `backoff_factor * 2^(n-1)` capped at 120 seconds. -/
def get_backoff_time (n : Nat) : Nat :=
  if n ≤ 1 then 0 else min 120 (backoff_factor * 2 ^ (n - 1))

/-- Terminal outcome of `session.get` (line 40) with the retrying adapter of
`setup_session` mounted: either a response is handed to `requests`, or the
retries are exhausted and a `requests` exception is raised. -/
inductive SessionResult where
  /-- `requests.exceptions.Timeout`: the attempts timed out until exhaustion. -/
  | timedOut
  /-- `requests.exceptions.ConnectionError`: connection-level failure until
  exhaustion. -/
  | connError
  /-- `requests.exceptions.RetryError`: too many responses with a status in
  `status_forcelist` (the adapter raises instead of returning the response,
  `raise_on_status` being the default). -/
  | retryError
  /-- A response with this status and (parsed-or-not) body. -/
  | resp (status : Nat) (body : Option GeoDict)
  deriving DecidableEq

/-- The urllib3 retry loop: `fuel` is the remaining `total` budget, `i` the
index of the attempt about to be made.  A retryable condition (timeout,
connection failure, or status in `status_forcelist`) consumes one unit of
fuel; when fuel is exhausted the corresponding exception is raised.  Returns
the terminal result and the total number of attempts performed. -/
def sessionLoop (p : Provider) : Nat → Nat → SessionResult × Nat
  | 0, i =>
    match p i with
    | .ok s body =>
      if s ∈ status_forcelist then (.retryError, i + 1) else (.resp s body, i + 1)
    | .timeout => (.timedOut, i + 1)
    | .connFail => (.connError, i + 1)
  | f + 1, i =>
    match p i with
    | .ok s body =>
      if s ∈ status_forcelist then sessionLoop p f (i + 1) else (.resp s body, i + 1)
    | .timeout => sessionLoop p f (i + 1)
    | .connFail => sessionLoop p f (i + 1)

/-- `session.get(url, params=params, timeout=5)` under the session of
`setup_session`: run the retry loop with the configured budget. -/
def session_get (p : Provider) : SessionResult × Nat :=
  sessionLoop p retry_total 0

/-- The hardcoded `API_KEY` literal (line 24). -/
def API_KEY : String := "20020022f148d7"

/-- URL construction (line 28).  Python truthiness: both `None` and the
empty string select the no-target URL, since `if ip_address` is false for
both. -/
def request_url : Option String → String
  | none => "https://ipinfo.io/json"
  | some ip =>
    if ip = "" then "https://ipinfo.io/json"
    else "https://ipinfo.io/" ++ ip ++ "/json"

/-- Python `str(params)` for `params = dict(token=API_KEY)` (line 31): the
fixed text rendered as an open brace, a quoted `token` key, a colon, the
quoted key value and a close brace.  The brace and quote characters are
produced by code point. -/
def params_repr : String :=
  let q := Char.ofNat 39
  let ob := Char.ofNat 123
  let cb := Char.ofNat 125
  String.mk [ob, q] ++ "token" ++ String.mk [q, ':', ' ', q] ++ API_KEY ++ String.mk [q, cb]

/-- `cache_key = url + str(params)` (line 34). -/
def cache_key (ip : Option String) : String :=
  request_url ip ++ params_repr

/-- `response.raise_for_status()` (line 41) raises exactly for client and
server error statuses. -/
def raise_for_status (s : Nat) : Bool :=
  decide (400 ≤ s) && decide (s < 600)

/-- The exception classes a call to `get_ip_geolocation` can catch and
report (lines 45-50), each landing in one of the three `except` branches. -/
inductive FetchErr where
  /-- `requests.exceptions.Timeout` (line 45). -/
  | timeoutE
  /-- `requests.exceptions.HTTPError` from `raise_for_status` (line 47),
  carrying the response status. -/
  | httpE (status : Nat)
  /-- `requests.exceptions.RetryError`, caught as a `RequestException`
  (line 49): retryable statuses exhausted the retry budget. -/
  | retryE
  /-- `requests.exceptions.ConnectionError`, caught as a `RequestException`
  (line 49). -/
  | transportE
  /-- `requests.exceptions.JSONDecodeError` from `response.json()` (line 42),
  caught as a `RequestException` (line 49). -/
  | malformedE
  deriving DecidableEq

/-- The observable outcome of one `get_ip_geolocation` call. -/
structure FetchResult where
  /-- The Python return value: the response dict, or `None` on any failure. -/
  result : Option GeoDict
  /-- The state of `geo_cache` after the call. -/
  cache : Cache
  /-- The number of outbound network attempts performed. -/
  attempts : Nat
  /-- The exception branch that reported, if any. -/
  error : Option FetchErr
  /-- Whether the call was served by the cache fast path (lines 35-37). -/
  fromCache : Bool
  deriving DecidableEq

/-- `get_ip_geolocation` (lines 20-51): consult the cache under
`cache_key`; on a miss, perform the request through the retrying session,
raise for status, parse the body, and cache the parsed value; every
exception is caught and turns into a `None` result with an unchanged
cache. -/
def get_ip_geolocation (ip : Option String) (p : Provider) (cache : Cache) : FetchResult :=
  match cacheFind cache (cache_key ip) with
  | some v => ⟨some v, cache, 0, none, true⟩
  | none =>
    match session_get p with
    | (.timedOut, n) => ⟨none, cache, n, some .timeoutE, false⟩
    | (.connError, n) => ⟨none, cache, n, some .transportE, false⟩
    | (.retryError, n) => ⟨none, cache, n, some .retryE, false⟩
    | (.resp s body, n) =>
      if raise_for_status s then ⟨none, cache, n, some (.httpE s), false⟩
      else
        match body with
        | none => ⟨none, cache, n, some .malformedE, false⟩
        | some d => ⟨some d, (cache_key ip, d) :: cache, n, none, false⟩

/-- Folding a sequence of fetch calls over the cache, keeping only the cache
state: the cache evolution of an arbitrary run of client calls. -/
def cacheAfterFetches : Cache → List (Option String × Provider) → Cache
  | c, [] => c
  | c, (t, p) :: rest => cacheAfterFetches (get_ip_geolocation t p c).cache rest

/-! ### Python string primitives

The `str.strip`, `str.lower` and `str.split` operations used by the menu
loop, implemented by structural recursion on the character list of the
string so that concrete runs reduce inside the kernel. -/

/-- The whitespace characters stripped by Python `str.strip()`:
space, tab, newline, carriage return, vertical tab and form feed. -/
def isPySpace (c : Char) : Bool :=
  c == ' ' || c == '\t' || c == '\n' || c == '\r' ||
    c == Char.ofNat 11 || c == Char.ofNat 12

/-- Python `str.strip()` on a character list: drop whitespace from both
ends. -/
def stripList (l : List Char) : List Char :=
  ((l.dropWhile isPySpace).reverse.dropWhile isPySpace).reverse

/-- Python `str.lower()` on one (ASCII) character. -/
def lowerChar (c : Char) : Char :=
  if 'A' ≤ c ∧ c ≤ 'Z' then Char.ofNat (c.toNat + 32) else c

/-- Python `str.lower()` on a character list. -/
def lowerList (l : List Char) : List Char :=
  l.map lowerChar

/-- Python `str.split(sep)` for a one-character separator: the split of the
empty text is `[[]]`, and each separator occurrence opens a new chunk. -/
def splitList (sep : Char) : List Char → List (List Char)
  | [] => [[]]
  | c :: cs =>
    let r := splitList sep cs
    if c == sep then [] :: r
    else
      match r with
      | h :: t => (c :: h) :: t
      | [] => [[c]]

/-- Python `s.strip()`. -/
def pyStrip (s : String) : String :=
  String.mk (stripList s.data)

/-- Python `s.strip().lower()`, the normalization applied to the color
input (line 191). -/
def pyStripLower (s : String) : String :=
  String.mk (lowerList (stripList s.data))

/-! ### The float grammar of the map branch

`float(loc[0])` at line 182 succeeds exactly when the text is a Python float
literal; the recognizer below models `float()` acceptance for the ordinary
decimal, exponent and inf/nan forms (digit-group underscores are not
modelled). -/

/-- Consume leading decimal digits: how many there are, and the rest. -/
def takeDigits : List Char → Nat × List Char
  | [] => (0, [])
  | c :: cs =>
    if c.isDigit then
      let r := takeDigits cs
      (r.1 + 1, r.2)
    else (0, c :: cs)

/-- After an `e`/`E`: an optional sign then at least one digit, ending the
text. -/
def expTail (cs : List Char) : Bool :=
  let ds := match cs with
    | c :: rest => if c == '+' || c == '-' then rest else c :: rest
    | [] => []
  let r := takeDigits ds
  0 < r.1 && r.2.isEmpty

/-- An optional exponent part closing the literal. -/
def expPart : List Char → Bool
  | [] => true
  | c :: cs => (c == 'e' || c == 'E') && expTail cs

/-- The unsigned body of a decimal float literal: digits with an optional
point (at least one digit overall), then an optional exponent. -/
def floatBody (cs : List Char) : Bool :=
  let r1 := takeDigits cs
  match r1.2 with
  | '.' :: rest =>
    let r2 := takeDigits rest
    0 < r1.1 + r2.1 && expPart r2.2
  | other => 0 < r1.1 && expPart other

/-- The case-insensitive special float names accepted by `float()`. -/
def specialFloat (cs : List Char) : Bool :=
  let low := lowerList cs
  low == ['i', 'n', 'f'] || low == ['i', 'n', 'f', 'i', 'n', 'i', 't', 'y'] ||
    low == ['n', 'a', 'n']

/-- Whether Python `float(s)` succeeds: surrounding whitespace is stripped,
then an optional sign precedes a decimal body or a special name. -/
def pyFloatAccepts (s : String) : Bool :=
  let cs := stripList s.data
  let body := match cs with
    | c :: rest => if c == '+' || c == '-' then rest else c :: rest
    | [] => []
  floatBody body || specialFloat body

/-! ### The interactive session controller (`main`, lines 132-202) -/

/-- `last_geo_data.get("loc", "").split(",")` (line 178). -/
def locParts (d : GeoDict) : List String :=
  (splitList ',' (dictGet d "loc" "").data).map String.mk

/-- `["red", "blue", "green", "purple", "orange"]` (line 192). -/
def valid_marker_colors : List String :=
  ["red", "blue", "green", "purple", "orange"]

/-- Zoom handling (lines 185-188): keep an in-range level, otherwise default
to 10; the flag records whether the out-of-range notice is printed. -/
def choose_zoom (z : Int) : Int × Bool :=
  if 1 ≤ z ∧ z ≤ 18 then (z, false) else (10, true)

/-- Color handling (lines 191-194): the raw input is stripped and
lowercased, then kept if in the valid set, otherwise defaulted to blue; the
flag records whether the invalid-color notice is printed. -/
def choose_color (raw : String) : String × Bool :=
  let c := pyStripLower raw
  if c ∈ valid_marker_colors then (c, false) else ("blue", true)

/-- The messages the controller (or the client it calls) prints during one
menu iteration, abstracted from their literal text. -/
inductive Msg where
  /-- The cached-data notice printed on the cache fast path (line 36). -/
  | usingCachedData
  /-- The one-line error notice of the `except` branch that caught `e`
  (lines 45-50). -/
  | fetchErr (e : FetchErr)
  /-- The `display_details` output for this record (lines 93-107). -/
  | details (d : GeoDict)
  /-- Any of the no-data notices (lines 162, 169, 174; also line 96). -/
  | noData
  /-- The `save_to_file` report for this record (lines 83-91). -/
  | savedToFile (d : GeoDict)
  /-- Could-not-extract-location notice (line 180). -/
  | locSplitError
  /-- Invalid-location-data notice of the `except ValueError` (line 198). -/
  | locValueError
  /-- Zoom out-of-range notice (line 188). -/
  | zoomDefaultNotice
  /-- Invalid-color notice (line 194). -/
  | colorDefaultNotice
  /-- The `create_map` completion report (line 79). -/
  | mapSaved
  /-- The exit message (line 201). -/
  | goodbye
  deriving DecidableEq

/-- One invocation of the map collaborator `create_map` (line 196): the two
coordinate texts given to `float()`, the chosen zoom and color, and the
record passed as details. -/
structure MapCall where
  latText : String
  lonText : String
  zoom : Int
  color : String
  details : GeoDict
  deriving DecidableEq

/-- The controller state: the cache owned by the client and the
`last_geo_data` slot (line 135). -/
structure St where
  cache : Cache
  last : Option GeoDict
  deriving DecidableEq

/-- One validated menu choice, carrying the peripheral inputs the
corresponding branch consumes; locate actions carry the provider behaviour
the network exhibits during that fetch. -/
inductive Action where
  /-- Choice 1: geolocate own IP. -/
  | locateSelf (p : Provider)
  /-- Choice 2: geolocate the given address text. -/
  | locateTarget (ipText : String) (p : Provider)
  /-- Choice 3: view last details. -/
  | showLast
  /-- Choice 4: save last to file. -/
  | saveLast
  /-- Choice 5: create the map with the given zoom and color inputs. -/
  | renderMap (zoomInput : Int) (colorInput : String)
  /-- Choice 6: exit. -/
  | exit

/-- The observable effect of one menu iteration. -/
structure StepOut where
  /-- The controller state afterwards. -/
  st : St
  /-- The messages printed, in order. -/
  msgs : List Msg
  /-- Outbound network attempts performed during the iteration. -/
  attempts : Nat
  /-- The map-collaborator invocation, if any. -/
  mapCall : Option MapCall
  /-- Whether the loop continues to the next menu prompt. -/
  continues : Bool
  deriving DecidableEq

/-- Python truthiness of a fetch result: `None` and the empty dict are
falsy, so the `if geo_data:` guards (lines 144, 153) skip them. -/
def pyTruthy : Option GeoDict → Bool
  | none => false
  | some d => !d.isEmpty

/-- The messages `get_ip_geolocation` itself prints. -/
def fetchMsgs (r : FetchResult) : List Msg :=
  match r.error with
  | some e => [.fetchErr e]
  | none => if r.fromCache then [.usingCachedData] else []

/-- The shared tail of choices 1 and 2 (lines 144-146 and 153-155): store
and display the result only when it is truthy. -/
def stepFetch (st : St) (r : FetchResult) : StepOut :=
  match r.result with
  | some d =>
    if d.isEmpty then ⟨⟨r.cache, st.last⟩, fetchMsgs r, r.attempts, none, true⟩
    else ⟨⟨r.cache, some d⟩, fetchMsgs r ++ [.details d], r.attempts, none, true⟩
  | none => ⟨⟨r.cache, st.last⟩, fetchMsgs r, r.attempts, none, true⟩

/-- One iteration of the menu loop of `main` (lines 137-202). -/
def step (st : St) : Action → StepOut
  | .locateSelf p => stepFetch st (get_ip_geolocation none p st.cache)
  | .locateTarget ipText p => stepFetch st (get_ip_geolocation (some ipText) p st.cache)
  | .showLast =>
    match st.last with
    | some d => ⟨st, [.details d], 0, none, true⟩
    | none => ⟨st, [.noData], 0, none, true⟩
  | .saveLast =>
    match st.last with
    | some d => ⟨st, [.savedToFile d], 0, none, true⟩
    | none => ⟨st, [.noData], 0, none, true⟩
  | .renderMap z c =>
    match st.last with
    | none => ⟨st, [.noData], 0, none, true⟩
    | some d =>
      match locParts d with
      | [a, b] =>
        if pyFloatAccepts a && pyFloatAccepts b then
          let zr := choose_zoom z
          let cr := choose_color c
          ⟨st,
            (if zr.2 then [Msg.zoomDefaultNotice] else []) ++
              (if cr.2 then [Msg.colorDefaultNotice] else []) ++ [Msg.mapSaved],
            0, some ⟨a, b, zr.1, cr.1, d⟩, true⟩
        else ⟨st, [.locValueError], 0, none, true⟩
      | _ => ⟨st, [.locSplitError], 0, none, true⟩
  | .exit => ⟨st, [.goodbye], 0, none, false⟩

/-- Running the menu loop on a list of validated choices: every iteration's
effect is recorded, and the loop stops early only when an iteration does not
continue (the exit branch, line 202). -/
def runActs : St → List Action → St × List StepOut
  | st, [] => (st, [])
  | st, a :: rest =>
    let o := step st a
    if o.continues then
      let r := runActs o.st rest
      (r.1, o :: r.2)
    else (o.st, [o])

/-! ### Startup and configuration -/

/-- The access token used for every request, as a function of the process
environment: the source consults no configuration at all, the token being
the hardcoded `API_KEY` literal (lines 22-25). -/
def token_of_env (_env : List (String × String)) : String :=
  API_KEY

/-- Whether startup reaches the menu loop, as a function of the process
environment: `main` (lines 132-137) performs no configuration check before
`while True`, so the menu loop is entered unconditionally. -/
def startup_enters_menu (_env : List (String × String)) : Bool :=
  true

/-- Normalization of a request target under Python truthiness: the empty
address text denotes the same request as the absent target (line 28). -/
def normalize_target : Option String → Option String
  | none => none
  | some s => if s = "" then none else some s

/-! ### Analysis helpers and concrete provider behaviours -/

/-- Whether an attempt outcome makes the mounted adapter retry: a timeout,
a connection failure, or a status in `status_forcelist`. -/
def retryableAttempt : Attempt → Bool
  | .timeout => true
  | .connFail => true
  | .ok s _ => decide (s ∈ status_forcelist)

/-- The session outcome raised when the budget is exhausted on the given
final attempt outcome. -/
def exhaustResult : Attempt → SessionResult
  | .timeout => .timedOut
  | .connFail => .connError
  | .ok _ _ => .retryError

/-- The exception branch reached when the budget is exhausted on the given
final attempt outcome. -/
def exhaustErr : Attempt → FetchErr
  | .timeout => .timeoutE
  | .connFail => .transportE
  | .ok _ _ => .retryE

/-- A healthy provider: 200 with a one-field record on every attempt. -/
def pOkRecord : Provider := fun _ => .ok 200 (some [("ip", "8.8.8.8")])

/-- A provider answering 200 with the empty JSON object on every attempt. -/
def pEmptyBody : Provider := fun _ => .ok 200 (some [])

/-- A provider answering 501 Not Implemented on every attempt. -/
def p501 : Provider := fun _ => .ok 501 (some [])

/-- A provider answering 500 (with an unparseable body) on every attempt. -/
def pAll500 : Provider := fun _ => .ok 500 none

/-- A provider that times out on every attempt. -/
def pTimeout : Provider := fun _ => .timeout

/-- A record with a well-formed coordinates field. -/
def recWithLoc : GeoDict := [("loc", "37.4,-122.08")]

/-- A record with no coordinates field at all. -/
def recNoLoc : GeoDict := [("ip", "8.8.8.8")]

/-! ## Helper lemmas about the client -/

/-- A fetch whose key is cached is the pure fast path: the stored record,
zero attempts, no error, cache untouched. -/
theorem fetch_cache_hit (t : Option String) (p : Provider) (c : Cache) (d : GeoDict)
    (h : cacheFind c (cache_key t) = some d) :
    get_ip_geolocation t p c = ⟨some d, c, 0, none, true⟩ := by
  unfold get_ip_geolocation
  rw [h]

/-- A fetch never removes or overwrites an existing cache entry. -/
theorem fetch_preserves_cache (t : Option String) (p : Provider) (c : Cache)
    (k : String) (v : GeoDict) (h : cacheFind c k = some v) :
    cacheFind (get_ip_geolocation t p c).cache k = some v := by
  unfold get_ip_geolocation
  cases hc : cacheFind c (cache_key t) with
  | some w => exact h
  | none =>
    cases hs : session_get p with
    | mk sr n =>
      cases sr with
      | timedOut => exact h
      | connError => exact h
      | retryError => exact h
      | resp s body =>
        by_cases hr : raise_for_status s
        · simp only [hr, if_true]
          exact h
        · simp only [hr, if_false]
          cases body with
          | none => exact h
          | some d =>
            simp only [cacheFind]
            split
            · next heq =>
                rw [← heq] at h
                rw [h] at hc
                cases hc
            · exact h

/-- A successful fetch leaves its result stored under its key. -/
theorem fetch_result_cached (t : Option String) (p : Provider) (c : Cache)
    (d : GeoDict) (h : (get_ip_geolocation t p c).result = some d) :
    cacheFind (get_ip_geolocation t p c).cache (cache_key t) = some d := by
  unfold get_ip_geolocation at h ⊢
  cases hc : cacheFind c (cache_key t) with
  | some w =>
    rw [hc] at h
    simpa [hc] using h
  | none =>
    rw [hc] at h
    cases hs : session_get p with
    | mk sr n =>
      rw [hs] at h
      cases sr with
      | timedOut => cases h
      | connError => cases h
      | retryError => cases h
      | resp s body =>
        by_cases hr : raise_for_status s
        · simp only [hr, if_true] at h
          cases h
        · simp only [hr, if_false] at h ⊢
          cases body with
          | none => cases h
          | some d0 =>
            simp only [hs]
            simp only [FetchResult.result] at h
            cases h
            simp [cacheFind]

/-- Existing cache entries survive any sequence of client calls. -/
theorem cacheAfterFetches_preserves (l : List (Option String × Provider))
    (c : Cache) (k : String) (v : GeoDict) (h : cacheFind c k = some v) :
    cacheFind (cacheAfterFetches c l) k = some v := by
  induction l generalizing c with
  | nil => exact h
  | cons tp rest ih =>
    cases tp with
    | mk t p =>
      exact ih _ (fetch_preserves_cache t p c k v h)

/-- The retry loop performs at most `fuel + 1` attempts beyond index `i`. -/
theorem sessionLoop_attempts_le (p : Provider) :
    ∀ fuel i, (sessionLoop p fuel i).2 ≤ i + fuel + 1 := by
  intro fuel
  induction fuel with
  | zero =>
    intro i
    unfold sessionLoop
    cases p i with
    | ok s body =>
      by_cases hf : s ∈ status_forcelist <;> simp [hf]
    | timeout => simp
    | connFail => simp
  | succ f ih =>
    intro i
    unfold sessionLoop
    cases p i with
    | ok s body =>
      by_cases hf : s ∈ status_forcelist
      · simp only [hf, if_true]
        have := ih (i + 1)
        omega
      · simp only [hf, if_false]
        omega
    | timeout =>
      have := ih (i + 1)
      simp only
      omega
    | connFail =>
      have := ih (i + 1)
      simp only
      omega

/-- The retry loop always performs at least one attempt. -/
theorem sessionLoop_attempts_pos (p : Provider) :
    ∀ fuel i, i + 1 ≤ (sessionLoop p fuel i).2 := by
  intro fuel
  induction fuel with
  | zero =>
    intro i
    unfold sessionLoop
    cases p i with
    | ok s body =>
      by_cases hf : s ∈ status_forcelist <;> simp [hf]
    | timeout => simp
    | connFail => simp
  | succ f ih =>
    intro i
    unfold sessionLoop
    cases p i with
    | ok s body =>
      by_cases hf : s ∈ status_forcelist
      · simp only [hf, if_true]
        have := ih (i + 1)
        omega
      · simp only [hf, if_false]
        omega
    | timeout =>
      have := ih (i + 1)
      simp only
      omega
    | connFail =>
      have := ih (i + 1)
      simp only
      omega

/-- When every attempt meets a retryable condition, the loop burns its whole
budget: `fuel + 1` attempts, and the exception class of the final attempt. -/
theorem sessionLoop_all_retryable (p : Provider)
    (h : ∀ j, retryableAttempt (p j) = true) :
    ∀ fuel i, sessionLoop p fuel i = (exhaustResult (p (i + fuel)), i + fuel + 1) := by
  intro fuel
  induction fuel with
  | zero =>
    intro i
    have hp := h i
    unfold sessionLoop
    cases hpi : p i with
    | ok s body =>
      rw [hpi] at hp
      simp only [retryableAttempt, decide_eq_true_eq] at hp
      simp [hp, hpi, exhaustResult]
    | timeout => simp [hpi, exhaustResult]
    | connFail => simp [hpi, exhaustResult]
  | succ f ih =>
    intro i
    have harith : i + 1 + f = i + (f + 1) := by omega
    unfold sessionLoop
    cases hpi : p i with
    | ok s body =>
      have hp := h i
      rw [hpi] at hp
      simp only [retryableAttempt, decide_eq_true_eq] at hp
      simp only [hp, if_true]
      rw [ih (i + 1), harith]
    | timeout =>
      simp only
      rw [ih (i + 1), harith]
    | connFail =>
      simp only
      rw [ih (i + 1), harith]

/-- When the retry loop meets a non-retryable response on its first attempt,
it hands that response over at once. -/
theorem sessionLoop_first_ok (p : Provider) (fuel i s : Nat) (body : Option GeoDict)
    (hp : p i = .ok s body) (hnf : s ∉ status_forcelist) :
    sessionLoop p fuel i = (.resp s body, i + 1) := by
  cases fuel with
  | zero =>
    unfold sessionLoop
    rw [hp]
    simp [hnf]
  | succ f =>
    unfold sessionLoop
    rw [hp]
    simp [hnf]

/-- A fetch never performs more than `retry_total + 1` outbound attempts. -/
theorem fetch_attempts_le (t : Option String) (q : Provider) (c : Cache) :
    (get_ip_geolocation t q c).attempts ≤ retry_total + 1 := by
  unfold get_ip_geolocation
  cases hc : cacheFind c (cache_key t) with
  | some v => simp
  | none =>
    have hle : (session_get q).2 ≤ retry_total + 1 := by
      have h0 := sessionLoop_attempts_le q retry_total 0
      simpa [session_get] using h0
    cases hs : session_get q with
    | mk sr n =>
      rw [hs] at hle
      cases sr with
      | timedOut => exact hle
      | connError => exact hle
      | retryError => exact hle
      | resp s body =>
        by_cases hrs : raise_for_status s
        · simpa [hrs] using hle
        · simp only [hrs, if_false]
          cases body with
          | none => exact hle
          | some d => exact hle

/-- A fetch returns `None` exactly when one of the typed exception branches
reported. -/
theorem fetch_classified (t : Option String) (p : Provider) (c : Cache) :
    (get_ip_geolocation t p c).result = none ↔
      ∃ e : FetchErr, (get_ip_geolocation t p c).error = some e := by
  unfold get_ip_geolocation
  cases hc : cacheFind c (cache_key t) with
  | some v => simp
  | none =>
    cases hs : session_get p with
    | mk sr n =>
      cases sr with
      | timedOut => simp
      | connError => simp
      | retryError => simp
      | resp s body =>
        by_cases hrs : raise_for_status s
        · simp [hrs]
        · simp only [hrs, if_false]
          cases body with
          | none => simp
          | some d => simp

/-- A locate iteration always returns to the menu. -/
theorem stepFetch_continues (st : St) (r : FetchResult) :
    (stepFetch st r).continues = true := by
  unfold stepFetch
  cases hres : r.result with
  | none => rfl
  | some d =>
    by_cases hd : d.isEmpty <;> simp [hd]

/-- The slot after a locate iteration: the fetched record when it is truthy,
the previous slot value otherwise. -/
theorem stepFetch_last (st : St) (r : FetchResult) :
    (stepFetch st r).st.last =
      (if pyTruthy r.result = true then r.result else st.last) := by
  unfold stepFetch
  cases hres : r.result with
  | none => simp [pyTruthy]
  | some d =>
    by_cases hd : d.isEmpty <;> simp [pyTruthy, hd]

/-- A locate iteration whose fetch failed prints exactly the one-line error
notice of the caught exception and leaves the slot unchanged. -/
theorem stepFetch_on_error (st : St) (r : FetchResult) (e : FetchErr)
    (herr : r.error = some e) (hres : r.result = none) :
    (stepFetch st r).msgs = [Msg.fetchErr e] ∧ (stepFetch st r).st.last = st.last := by
  unfold stepFetch
  rw [hres]
  exact ⟨by simp [fetchMsgs, herr], rfl⟩

/-- A continuing iteration never truncates the run: the remaining actions
are still processed. -/
theorem runActs_cons_continue (st : St) (a : Action) (rest : List Action)
    (h : (step st a).continues = true) :
    (runActs st (a :: rest)).2 =
      step st a :: (runActs (step st a).st rest).2 := by
  conv_lhs => rw [runActs]
  simp only [h, if_true]

/-- The map branch never changes the controller state. -/
theorem step_renderMap_st (st : St) (z : Int) (c : String) :
    (step st (.renderMap z c)).st = st := by
  obtain ⟨cache, last⟩ := st
  cases last with
  | none => simp [step]
  | some d =>
    simp only [step]
    cases hp : locParts d with
    | nil => rfl
    | cons a t =>
      cases t with
      | nil => rfl
      | cons b t2 =>
        cases t2 with
        | nil =>
          by_cases hf : (pyFloatAccepts a && pyFloatAccepts b) = true <;> simp [hf]
        | cons x t3 => rfl

/-! ## Claim theorems -/

/-- C1: a given cache key is fetched from the remote service at most once
per process lifetime.  After one fetch for target `t` succeeds with record
`d`, every subsequent fetch whose key equals the key of `t` — after any
number of intervening client calls — returns exactly the stored record with
zero outbound attempts and no error, leaving the cache untouched. -/
theorem c1_fetch_at_most_once (t : Option String) (p : Provider) (c : Cache)
    (d : GeoDict) (h : (get_ip_geolocation t p c).result = some d)
    (later : List (Option String × Provider)) (t2 : Option String) (q : Provider)
    (hk : cache_key t2 = cache_key t) :
    get_ip_geolocation t2 q (cacheAfterFetches (get_ip_geolocation t p c).cache later) =
      ⟨some d, cacheAfterFetches (get_ip_geolocation t p c).cache later, 0, none, true⟩ := by
  apply fetch_cache_hit
  rw [hk]
  exact cacheAfterFetches_preserves later _ _ _ (fetch_result_cached t p c d h)

/-- Witness for C1: a successful self-lookup against `pOkRecord`, followed
by an unrelated client call, then a repeat self-lookup against a provider
that would time out: the repeat is served from the cache. -/
theorem c1_fetch_at_most_once_witness :
    (get_ip_geolocation none pOkRecord []).result = some [("ip", "8.8.8.8")] ∧
      get_ip_geolocation none pTimeout
          (cacheAfterFetches (get_ip_geolocation none pOkRecord []).cache
            [(some "1.1.1.1", pEmptyBody)]) =
        ⟨some [("ip", "8.8.8.8")],
          cacheAfterFetches (get_ip_geolocation none pOkRecord []).cache
            [(some "1.1.1.1", pEmptyBody)], 0, none, true⟩ :=
  ⟨by decide,
    c1_fetch_at_most_once none pOkRecord [] [("ip", "8.8.8.8")] (by decide)
      [(some "1.1.1.1", pEmptyBody)] none pTimeout rfl⟩

/-- C3: fetch mutates the cache only on success.  A failing fetch (result
`None`) leaves the cache exactly as it was, and a subsequent fetch of the
same target performs at least one fresh outbound attempt instead of being
served from the cache. -/
theorem c3_failure_never_cached (t : Option String) (p : Provider) (c : Cache)
    (h : (get_ip_geolocation t p c).result = none) :
    (get_ip_geolocation t p c).cache = c ∧
      ∀ q : Provider, 1 ≤ (get_ip_geolocation t q (get_ip_geolocation t p c).cache).attempts := by
  have hmiss : cacheFind c (cache_key t) = none := by
    cases hc : cacheFind c (cache_key t) with
    | none => rfl
    | some v =>
      rw [fetch_cache_hit t p c v hc] at h
      cases h
  have hcache : (get_ip_geolocation t p c).cache = c := by
    unfold get_ip_geolocation at h ⊢
    rw [hmiss] at h ⊢
    cases hs : session_get p with
    | mk sr n =>
      rw [hs] at h
      cases sr with
      | timedOut => rfl
      | connError => rfl
      | retryError => rfl
      | resp s body =>
        by_cases hr : raise_for_status s
        · simp [hr]
        · simp only [hr, if_false] at h ⊢
          cases body with
          | none => rfl
          | some d => cases h
  refine ⟨hcache, fun q => ?_⟩
  rw [hcache]
  unfold get_ip_geolocation
  rw [hmiss]
  have hpos : 1 ≤ (session_get q).2 := sessionLoop_attempts_pos q retry_total 0
  cases hs : session_get q with
  | mk sr n =>
    rw [hs] at hpos
    cases sr with
    | timedOut => exact hpos
    | connError => exact hpos
    | retryError => exact hpos
    | resp s body =>
      by_cases hr : raise_for_status s
      · simpa [hr] using hpos
      · simp only [hr, if_false]
        cases body with
        | none => exact hpos
        | some d => exact hpos

/-- Witness for C3: a fetch that exhausts retries against `pAll500` caches
nothing, and the repeat fetch goes back to the network (here succeeding in
one attempt against the healthy `pOkRecord`). -/
theorem c3_failure_never_cached_witness :
    (get_ip_geolocation none pAll500 []).result = none ∧
      (get_ip_geolocation none pAll500 []).cache = [] ∧
      1 ≤ (get_ip_geolocation none pOkRecord (get_ip_geolocation none pAll500 []).cache).attempts :=
  ⟨by decide, (c3_failure_never_cached none pAll500 [] (by decide)).1,
    (c3_failure_never_cached none pAll500 [] (by decide)).2 pOkRecord⟩

/-- C9: success requires only that a 2xx response body parses as JSON.  On a
cache miss, if the first attempt yields a 2xx response with any JSON object
body `d` — even one with none of the expected record fields — the fetch
succeeds in that one attempt, stores `d` under the request's key, and
returns `d`. -/
theorem c9_2xx_json_is_success (t : Option String) (p : Provider) (c : Cache)
    (s : Nat) (d : GeoDict)
    (hmiss : cacheFind c (cache_key t) = none)
    (hp : p 0 = .ok s (some d)) (h2 : 200 ≤ s) (h3 : s < 300) :
    get_ip_geolocation t p c = ⟨some d, (cache_key t, d) :: c, 1, none, false⟩ := by
  have hnf : s ∉ status_forcelist := by
    intro hmem
    simp only [status_forcelist, List.mem_cons, List.not_mem_nil, or_false] at hmem
    rcases hmem with h | h | h | h | h <;> omega
  have hsess : session_get p = (.resp s (some d), 1) :=
    sessionLoop_first_ok p retry_total 0 s (some d) hp hnf
  have h4 : ¬ 400 ≤ s := by omega
  have hrs : raise_for_status s = false := by
    simp [raise_for_status, h4]
  unfold get_ip_geolocation
  rw [hmiss, hsess]
  simp [hrs]

/-- Witness for C9: a 200 response whose body is the empty JSON object is
treated as a success, cached, and returned. -/
theorem c9_2xx_json_is_success_witness :
    cacheFind [] (cache_key (some "8.8.8.8")) = none ∧
      get_ip_geolocation (some "8.8.8.8") pEmptyBody [] =
        ⟨some [], (cache_key (some "8.8.8.8"), []) :: [], 1, none, false⟩ :=
  ⟨rfl, c9_2xx_json_is_success (some "8.8.8.8") pEmptyBody [] 200 [] rfl rfl
    (by decide) (by decide)⟩

/-- C2 counterexample: 501 is a 5xx status, yet the session does not retry
it at all — a provider always answering 501 gets exactly one outbound
attempt and an `HTTPError`, while a provider always answering the genuinely
retryable status 500 gets the full four attempts. -/
theorem c2_counterexample :
    (500 ≤ 501 ∧ 501 < 600) ∧
      (get_ip_geolocation none p501 []).attempts = 1 ∧
      (get_ip_geolocation none p501 []).result = none ∧
      (get_ip_geolocation none p501 []).error = some (.httpE 501) ∧
      (get_ip_geolocation none pAll500 []).attempts = 4 := by
  decide

/-- C2 (amended): the retryable conditions are a timeout, a connection
failure, or a status in `status_forcelist` (429, 500, 502, 503 and 504 —
not every 5xx).  When the provider meets such a condition on every attempt,
a non-cached fetch makes exactly `retry_total + 1 = 4` outbound attempts —
and no fetch ever makes more — with strictly increasing backoff delays
between consecutive retries, then returns the `None` failure reported
through the exception class of the final attempt (`Timeout`, or a
`RequestException`: `ConnectionError` or `RetryError`). -/
theorem c2_retry_exhaustion (t : Option String) (p : Provider) (c : Cache)
    (hr : ∀ j, retryableAttempt (p j) = true)
    (hmiss : cacheFind c (cache_key t) = none) :
    (get_ip_geolocation t p c).attempts = retry_total + 1 ∧
      (get_ip_geolocation t p c).result = none ∧
      (get_ip_geolocation t p c).error = some (exhaustErr (p retry_total)) ∧
      (∀ q : Provider, (get_ip_geolocation t q c).attempts ≤ retry_total + 1) ∧
      get_backoff_time 1 < get_backoff_time 2 ∧
      get_backoff_time 2 < get_backoff_time 3 := by
  have hsess : session_get p = (exhaustResult (p retry_total), retry_total + 1) := by
    have h0 := sessionLoop_all_retryable p hr retry_total 0
    simpa [session_get] using h0
  have hfetch : get_ip_geolocation t p c =
      ⟨none, c, retry_total + 1, some (exhaustErr (p retry_total)), false⟩ := by
    unfold get_ip_geolocation
    rw [hmiss, hsess]
    cases hpe : p retry_total with
    | timeout => simp [exhaustResult, exhaustErr]
    | connFail => simp [exhaustResult, exhaustErr]
    | ok s body => simp [exhaustResult, exhaustErr]
  refine ⟨by rw [hfetch], by rw [hfetch], by rw [hfetch],
    fun q => fetch_attempts_le t q c, by decide, by decide⟩

/-- Witness for C2 (amended): a provider that times out on every attempt
yields exactly four outbound attempts, a `None` result, and the `Timeout`
classification. -/
theorem c2_retry_exhaustion_witness :
    (get_ip_geolocation none pTimeout []).attempts = retry_total + 1 ∧
      (get_ip_geolocation none pTimeout []).result = none ∧
      (get_ip_geolocation none pTimeout []).error = some FetchErr.timeoutE :=
  ⟨(c2_retry_exhaustion none pTimeout [] (fun _ => rfl) rfl).1,
    (c2_retry_exhaustion none pTimeout [] (fun _ => rfl) rfl).2.1,
    (c2_retry_exhaustion none pTimeout [] (fun _ => rfl) rfl).2.2.1⟩

/-- C4: no provider behaviour crashes the session.  For every cache state,
target and provider behaviour, the fetch result is `None` exactly when one
of the typed exception classes reported; a failing locate action prints
precisely that one-line notice and leaves the slot unchanged; locate
iterations always return to the menu; and the menu loop goes on to process
the remaining actions. -/
theorem c4_no_unhandled_fault (st : St) (t : Option String) (ipText : String)
    (p : Provider) (rest : List Action) :
    ((get_ip_geolocation t p st.cache).result = none ↔
      ∃ e : FetchErr, (get_ip_geolocation t p st.cache).error = some e) ∧
      (∀ e : FetchErr, (get_ip_geolocation none p st.cache).error = some e →
        (step st (.locateSelf p)).msgs = [Msg.fetchErr e] ∧
          (step st (.locateSelf p)).st.last = st.last) ∧
      (∀ e : FetchErr, (get_ip_geolocation (some ipText) p st.cache).error = some e →
        (step st (.locateTarget ipText p)).msgs = [Msg.fetchErr e] ∧
          (step st (.locateTarget ipText p)).st.last = st.last) ∧
      (step st (.locateSelf p)).continues = true ∧
      (step st (.locateTarget ipText p)).continues = true ∧
      (runActs st (.locateSelf p :: rest)).2 =
        step st (.locateSelf p) :: (runActs (step st (.locateSelf p)).st rest).2 := by
  refine ⟨fetch_classified t p st.cache, fun e he => ?_, fun e he => ?_,
    stepFetch_continues st _, stepFetch_continues st _,
    runActs_cons_continue st _ rest (stepFetch_continues st _)⟩
  · have hres : (get_ip_geolocation none p st.cache).result = none :=
      (fetch_classified none p st.cache).mpr ⟨e, he⟩
    exact stepFetch_on_error st _ e he hres
  · have hres : (get_ip_geolocation (some ipText) p st.cache).result = none :=
      (fetch_classified (some ipText) p st.cache).mpr ⟨e, he⟩
    exact stepFetch_on_error st _ e he hres

/-- Witness for C4: against a provider that always times out, the locate
action reports the `Timeout` notice, keeps the empty slot, and the session
processes a following menu action. -/
theorem c4_no_unhandled_fault_witness :
    ((get_ip_geolocation none pOkRecord []).result = none ↔
      ∃ e : FetchErr, (get_ip_geolocation none pOkRecord []).error = some e) ∧
      (step ⟨[], none⟩ (.locateSelf pTimeout)).msgs = [Msg.fetchErr .timeoutE] ∧
      (step ⟨[], none⟩ (.locateSelf pTimeout)).st.last = none ∧
      (runActs ⟨[], none⟩ [.locateSelf pTimeout, .showLast]).2 =
        step ⟨[], none⟩ (.locateSelf pTimeout) ::
          (runActs (step ⟨[], none⟩ (.locateSelf pTimeout)).st [.showLast]).2 := by
  have h := c4_no_unhandled_fault ⟨[], none⟩ none "x" pTimeout [Action.showLast]
  have h1 := c4_no_unhandled_fault ⟨[], none⟩ none "x" pOkRecord ([] : List Action)
  exact ⟨h1.1, (h.2.1 FetchErr.timeoutE (by decide)).1,
    (h.2.1 FetchErr.timeoutE (by decide)).2, h.2.2.2.2.2⟩

/-- C5 counterexample: against a provider answering 200 with the empty JSON
object, the fetch succeeds (the record is returned and cached with no
error), yet the controller does not update the last-result slot, because the
empty dict is falsy in the `if geo_data:` guard. -/
theorem c5_counterexample :
    (get_ip_geolocation none pEmptyBody []).result = some [] ∧
      (get_ip_geolocation none pEmptyBody []).error = none ∧
      cacheFind (get_ip_geolocation none pEmptyBody []).cache (cache_key none) = some [] ∧
      (step ⟨[], none⟩ (.locateSelf pEmptyBody)).st.last = none := by
  decide

/-- C5 (amended): the last-result slot is updated exactly when a fetch (for
self or for an explicit target) returns a truthy — non-empty — record;
when the fetch fails or returns a falsy record the slot retains its previous
value, and the show, save, render-map and exit actions never modify it. -/
theorem c5_slot_update_discipline (st : St) (p : Provider) (ipText : String)
    (z : Int) (c : String) :
    ((step st (.locateSelf p)).st.last =
      (if pyTruthy (get_ip_geolocation none p st.cache).result = true
        then (get_ip_geolocation none p st.cache).result else st.last)) ∧
      ((step st (.locateTarget ipText p)).st.last =
        (if pyTruthy (get_ip_geolocation (some ipText) p st.cache).result = true
          then (get_ip_geolocation (some ipText) p st.cache).result else st.last)) ∧
      (step st .showLast).st.last = st.last ∧
      (step st .saveLast).st.last = st.last ∧
      (step st (.renderMap z c)).st.last = st.last ∧
      (step st .exit).st.last = st.last := by
  refine ⟨stepFetch_last st _, stepFetch_last st _, ?_, ?_,
    by rw [step_renderMap_st], rfl⟩
  · unfold step
    cases h : st.last with
    | none => exact h
    | some d => exact h
  · unfold step
    cases h : st.last with
    | none => exact h
    | some d => exact h

/-- C6 counterexample: the raw color input `RED` lies outside the enumerated
set, yet the map is rendered with color `red` — not the default blue — and
no invalid-color notice is printed, because the input is lowercased before
the membership test. -/
theorem c6_counterexample :
    ("RED" ∈ valid_marker_colors ↔ False) ∧
      (step ⟨[], some recWithLoc⟩ (.renderMap 12 "RED")).mapCall =
        some ⟨"37.4", "-122.08", 12, "red", recWithLoc⟩ ∧
      ¬ Msg.colorDefaultNotice ∈ (step ⟨[], some recWithLoc⟩ (.renderMap 12 "RED")).msgs := by
  decide

/-- C6 (amended): on the render path (slot present, coordinates parseable),
a zoom outside [1, 18] is replaced by the default 10 with a notice and an
in-range zoom passes through unchanged; the color input is first stripped
and lowercased, and the normalized color is replaced by the default blue
with a notice exactly when it lies outside the enumerated set, passing
through unchanged otherwise. -/
theorem c6_zoom_color_defaulting (st : St) (d : GeoDict) (z : Int) (c : String)
    (a b : String) (hl : st.last = some d) (hp : locParts d = [a, b])
    (hf : (pyFloatAccepts a && pyFloatAccepts b) = true) :
    (step st (.renderMap z c)).mapCall =
        some ⟨a, b, (choose_zoom z).1, (choose_color c).1, d⟩ ∧
      ((choose_zoom z).1 = if 1 ≤ z ∧ z ≤ 18 then z else 10) ∧
      ((choose_color c).1 =
        if pyStripLower c ∈ valid_marker_colors then pyStripLower c else "blue") ∧
      (Msg.zoomDefaultNotice ∈ (step st (.renderMap z c)).msgs ↔ ¬(1 ≤ z ∧ z ≤ 18)) ∧
      (Msg.colorDefaultNotice ∈ (step st (.renderMap z c)).msgs ↔
        pyStripLower c ∉ valid_marker_colors) := by
  obtain ⟨cache, last⟩ := st
  simp only at hl
  subst hl
  have hz1 : (choose_zoom z).1 = if 1 ≤ z ∧ z ≤ 18 then z else 10 := by
    unfold choose_zoom
    by_cases hz : 1 ≤ z ∧ z ≤ 18 <;> simp [hz]
  have hc1 : (choose_color c).1 =
      if pyStripLower c ∈ valid_marker_colors then pyStripLower c else "blue" := by
    unfold choose_color
    by_cases hc : pyStripLower c ∈ valid_marker_colors <;> simp [hc]
  refine ⟨by simp [step, hp, hf], hz1, hc1, ?_, ?_⟩
  · by_cases hz : 1 ≤ z ∧ z ≤ 18 <;>
      by_cases hc : pyStripLower c ∈ valid_marker_colors <;>
      simp [step, hp, hf, choose_zoom, choose_color, hz, hc]
  · by_cases hz : 1 ≤ z ∧ z ≤ 18 <;>
      by_cases hc : pyStripLower c ∈ valid_marker_colors <;>
      simp [step, hp, hf, choose_zoom, choose_color, hz, hc]

/-- Witness for C6 (amended): zoom 25 yields the default 10 with the
out-of-range notice, and color `pink` yields the default blue with the
invalid-color notice. -/
theorem c6_zoom_color_defaulting_witness :
    (step ⟨[], some recWithLoc⟩ (.renderMap 25 "pink")).mapCall =
        some ⟨"37.4", "-122.08", 10, "blue", recWithLoc⟩ ∧
      (Msg.zoomDefaultNotice ∈ (step ⟨[], some recWithLoc⟩ (.renderMap 25 "pink")).msgs ↔
        ¬(1 ≤ (25 : Int) ∧ (25 : Int) ≤ 18)) ∧
      (Msg.colorDefaultNotice ∈ (step ⟨[], some recWithLoc⟩ (.renderMap 25 "pink")).msgs ↔
        pyStripLower "pink" ∉ valid_marker_colors) := by
  have h := c6_zoom_color_defaulting ⟨[], some recWithLoc⟩ recWithLoc 25 "pink"
    "37.4" "-122.08" rfl (by decide) (by decide)
  exact ⟨h.1, h.2.2.2.1, h.2.2.2.2⟩

/-- C10: the render action is total over malformed location data.  Whenever
the slot record's coordinates field is absent, does not split into exactly
two comma-separated parts, or has a part that does not parse as a float, the
iteration prints one error notice, never invokes the map collaborator,
leaves the controller state unchanged, and returns to the menu. -/
theorem c10_render_total_on_malformed_loc (st : St) (d : GeoDict) (z : Int)
    (c : String) (hl : st.last = some d)
    (hbad : (match locParts d with
             | [a, b] => pyFloatAccepts a && pyFloatAccepts b
             | _ => false) = false) :
    (step st (.renderMap z c)).mapCall = none ∧
      ((step st (.renderMap z c)).msgs = [Msg.locSplitError] ∨
        (step st (.renderMap z c)).msgs = [Msg.locValueError]) ∧
      (step st (.renderMap z c)).st = st ∧
      (step st (.renderMap z c)).continues = true := by
  obtain ⟨cache, last⟩ := st
  simp only at hl
  subst hl
  simp only [step]
  cases hp : locParts d with
  | nil => simp
  | cons a t =>
    cases t with
    | nil => simp
    | cons b t2 =>
      cases t2 with
      | nil =>
        rw [hp] at hbad
        simp only at hbad
        simp [hbad]
      | cons x t3 => simp

/-- Witness for C10: a record with no coordinates field makes the render
action print the extraction error, skip the map collaborator, and leave the
state unchanged with the loop continuing. -/
theorem c10_render_total_on_malformed_loc_witness :
    (step ⟨[], some recNoLoc⟩ (.renderMap 12 "red")).mapCall = none ∧
      ((step ⟨[], some recNoLoc⟩ (.renderMap 12 "red")).msgs = [Msg.locSplitError] ∨
        (step ⟨[], some recNoLoc⟩ (.renderMap 12 "red")).msgs = [Msg.locValueError]) ∧
      (step ⟨[], some recNoLoc⟩ (.renderMap 12 "red")).st = ⟨[], some recNoLoc⟩ ∧
      (step ⟨[], some recNoLoc⟩ (.renderMap 12 "red")).continues = true :=
  c10_render_total_on_malformed_loc ⟨[], some recNoLoc⟩ recNoLoc 12 "red" rfl (by decide)

/-- Cache keys agree exactly when the URLs they were built from agree: the
parameter text is a fixed suffix, cancellable on the right. -/
theorem cache_key_eq_iff (A B : Option String) :
    cache_key A = cache_key B ↔ request_url A = request_url B := by
  unfold cache_key
  constructor
  · intro h
    have hd := congrArg String.data h
    simp only [String.data_append] at hd
    exact String.ext (List.append_cancel_right hd)
  · intro h
    rw [h]

/-- The self URL differs from the URL of every nonempty explicit target. -/
theorem request_url_ne_self (s : String) (hs : s ≠ "") :
    request_url (some s) ≠ request_url none := by
  simp only [request_url]
  rw [if_neg hs]
  intro h
  have hd := congrArg String.data h
  simp only [String.data_append] at hd
  have hlen := congrArg List.length hd
  simp only [List.length_append] at hlen
  have hpos : 0 < s.data.length := by
    cases hn : s.data with
    | nil => exact absurd (String.ext hn) hs
    | cons c0 t0 => simp
  have h18 : ("https://ipinfo.io/" : String).data.length = 18 := by decide
  have h5 : ("/json" : String).data.length = 5 := by decide
  have h22 : ("https://ipinfo.io/json" : String).data.length = 22 := by decide
  rw [h18, h5, h22] at hlen
  omega

/-- Distinct nonempty targets build distinct URLs: the host prefix cancels
on the left and the `/json` suffix on the right. -/
theorem request_url_inj_nonempty (s t : String) (hs : s ≠ "") (ht : t ≠ "")
    (h : request_url (some s) = request_url (some t)) : s = t := by
  simp only [request_url] at h
  rw [if_neg hs, if_neg ht] at h
  have hd := congrArg String.data h
  simp only [String.data_append] at hd
  exact String.ext (List.append_cancel_left (List.append_cancel_right hd))

/-- C7 counterexample: the self request and the explicitly supplied empty
address text are distinct requests, yet they share one cache key (Python
truthiness sends both to the no-target URL). -/
theorem c7_counterexample :
    cache_key none = cache_key (some "") ∧ (none : Option String) ≠ some "" := by
  decide

/-- C7 (amended): the cache key function is deterministic and injective up
to Python truthiness of the target: two requests share a cache key exactly
when their targets normalize to the same value, where the empty address
text normalizes to the self request.  In particular the self lookup and
every nonempty literal target (a typed self IP included) get distinct keys,
distinct nonempty targets get distinct keys, and identical effective
parameters always get the same key. -/
theorem c7_cache_key_injective_mod_truthiness (A B : Option String) :
    cache_key A = cache_key B ↔ normalize_target A = normalize_target B := by
  rw [cache_key_eq_iff]
  have hself : request_url (some "") = request_url none := by
    simp [request_url]
  cases A with
  | none =>
    cases B with
    | none => simp [normalize_target]
    | some t =>
      by_cases ht : t = ""
      · subst ht
        simp [normalize_target, hself]
      · constructor
        · intro h
          exact absurd h.symm (request_url_ne_self t ht)
        · intro h
          simp [normalize_target, ht] at h
  | some s =>
    cases B with
    | none =>
      by_cases hs : s = ""
      · subst hs
        simp [normalize_target, hself]
      · constructor
        · intro h
          exact absurd h (request_url_ne_self s hs)
        · intro h
          simp [normalize_target, hs] at h
    | some t =>
      by_cases hs : s = "" <;> by_cases ht : t = ""
      · subst hs; subst ht
        simp [normalize_target]
      · subst hs
        constructor
        · intro h
          rw [hself] at h
          exact absurd h.symm (request_url_ne_self t ht)
        · intro h
          simp [normalize_target, ht] at h
      · subst ht
        constructor
        · intro h
          rw [hself] at h
          exact absurd h (request_url_ne_self s hs)
        · intro h
          simp [normalize_target, hs] at h
      · constructor
        · intro h
          rw [request_url_inj_nonempty s t hs ht h]
        · intro h
          simp only [normalize_target, if_neg hs, if_neg ht, Option.some.injEq] at h
          rw [h]

/-- C8 counterexample: with an empty process configuration — no token
present anywhere — the program still holds the hardcoded nonempty token and
enters the menu loop instead of failing fast. -/
theorem c8_counterexample :
    token_of_env [] = "20020022f148d7" ∧ API_KEY ≠ "" ∧
      startup_enters_menu [] = true := by
  decide

/-- C8 (amended): the access token is the hardcoded `API_KEY` constant for
every process environment; it is always nonempty, so the token parameter is
always sent, and startup enters the menu loop unconditionally — the program
has no missing-token fail-fast path (and no fatal startup path at all). -/
theorem c8_token_hardcoded (env : List (String × String)) :
    token_of_env env = "20020022f148d7" ∧ token_of_env env ≠ "" ∧
      startup_enters_menu env = true := by
  have hne : API_KEY ≠ "" := by decide
  exact ⟨rfl, fun h => hne h, rfl⟩

end GeoTracker
